import Mathlib

/-!
# PawFeel scanner UI (`frontend/src/App.jsx`)

A shallow embedding of the `App` component: its five state cells, the three
event handlers (`handleFileChange`, `resetApp`, `handleSubmit`), the helper
`getEmotionEmoji` and the expression that renders the analysis breakdown.

Conventions of the embedding:
* JavaScript `null` is `none` for the cells holding a file or a string, and
  `Json.null` for the `prediction` cell, which holds whatever
  `response.json()` resolved to;
* the network is an environment `fetch : Nat → FetchOutcome` giving the
  outcome of the request issued by loop iteration `i`;
* requests and timer waits are recorded, in order, in a list of `Effect`s.
-/

namespace PawFeel

/-! ## Data model -/

/-- Value produced by `JSON.parse`; numbers are kept as exact rationals. -/
inductive Json where
  | null
  | bool (b : Bool)
  | num (q : ℚ)
  | str (s : String)
  | arr (items : List Json)
  | obj (props : List (String × Json))

/-- JavaScript `value !== null` on a parsed value. -/
def Json.isNonNull : Json → Bool
  | .null => false
  | _ => true

/-- JavaScript truthiness of a parsed value (the test made by `prediction && ...`). -/
def Json.truthy : Json → Bool
  | .null => false
  | .bool b => b
  | .num q => decide (q ≠ 0)
  | .str s => decide (s ≠ "")
  | .arr _ => true
  | .obj _ => true

/-- JavaScript truthiness of a cell holding `null` or a string. -/
def truthyString : Option String → Bool
  | none => false
  | some s => decide (s ≠ "")

/-- Browser `File`: its name and its declared media type (`file.type`). -/
structure File where
  name : String
  type : String
deriving DecidableEq, Repr

/-- The five `useState` cells of `App`, with their initial values in `initialState`. -/
structure State where
  selectedFile : Option File
  previewUrl : Option String
  prediction : Json
  isLoading : Bool
  error : Option String

/-- Values passed to `useState` on first render. -/
def initialState : State :=
  { selectedFile := none, previewUrl := none, prediction := Json.null,
    isLoading := false, error := none }

/-- Response of `fetch`: the status code and what `response.json()` settles to
(the parsed body, or the message of the error it rejects with). -/
structure Response where
  status : Nat
  json : Except String Json

/-- Getter `response.ok` of the Fetch standard: the status is in the range 200 to 299. -/
def Response.ok (r : Response) : Bool :=
  decide (200 ≤ r.status) && decide (r.status ≤ 299)

/-- Settlement of one `fetch` call: a response of any status, or a rejection
(transport-level failure) carrying the message of the thrown error. -/
inductive FetchOutcome where
  | resolved (response : Response)
  | rejected (message : String)

/-- Observable actions of a submission. -/
inductive Effect where
  | request (url : String) (file : File)
  | wait (ms : Nat)
deriving DecidableEq, Repr

/-! ## Submission controller (`handleSubmit`) -/

/-- Constant `API_URL`. -/
def API_URL : String := "https://Subhrapratim07-Dog-Emotion-API-Docker.hf.space/predict"

/-- Constant `MAX_RETRIES`. -/
@[reducible] def MAX_RETRIES : Nat := 3

/-- Message of the `Error` thrown after the loop. -/
def connectMessage : String := "Could not connect to the analysis engine."

/-- Loop-carried variables `delay` and `response`, with the effects so far. -/
structure LoopState where
  delay : Nat
  response : Option Response
  log : List Effect

/-- Values of the loop variables before the first iteration. -/
def loopInit : LoopState := { delay := 1000, response := none, log := [] }

/-- Tail of a loop iteration: `if (i < MAX_RETRIES - 1) { await wait(delay); delay *= 2 }`. -/
def backoff (i : Nat) (st : LoopState) : LoopState :=
  if i < MAX_RETRIES - 1 then
    { st with log := st.log ++ [Effect.wait st.delay], delay := st.delay * 2 }
  else st

/-- The loop `for (let i = 0; i < MAX_RETRIES; i++)` entered at index `i`. A
resolved response is stored before its status is tested; a status other than
429 breaks out; a rejection is caught and leaves `response` as it was. -/
def retryLoop (fetch : Nat → FetchOutcome) (file : File) (i : Nat) (st : LoopState) : LoopState :=
  if i < MAX_RETRIES then
    let sent : LoopState := { st with log := st.log ++ [Effect.request API_URL file] }
    match fetch i with
    | FetchOutcome.resolved r =>
      if r.status ≠ 429 then { sent with response := some r }
      else retryLoop fetch file (i + 1) (backoff i { sent with response := some r })
    | FetchOutcome.rejected _ => retryLoop fetch file (i + 1) (backoff i sent)
  else st
termination_by MAX_RETRIES - i

/-- Body of the outer `try`: the loop, the `!response || !response.ok` test and
`await response.json()`. The result is the parsed body, or the `message` of the
error that reaches `catch (err)`. -/
def tryBlock (fetch : Nat → FetchOutcome) (file : File) : Except String Json × List Effect :=
  let st := retryLoop fetch file 0 loopInit
  match st.response with
  | none => (Except.error connectMessage, st.log)
  | some r =>
    if !r.ok then (Except.error connectMessage, st.log)
    else (r.json, st.log)

/-- Synchronous head of `handleSubmit`: `setIsLoading(true); setError(null); setPrediction(null)`. -/
def submitStart (s : State) : State :=
  { s with isLoading := true, error := none, prediction := Json.null }

/-- Settling of `handleSubmit`: `setPrediction(data)` or `setError(err.message)`,
then `setIsLoading(false)` from `finally`. -/
def submitComplete (outcome : Except String Json) (s : State) : State :=
  match outcome with
  | Except.ok data => { s with prediction := data, isLoading := false }
  | Except.error message => { s with error := some message, isLoading := false }

/-- The handler `handleSubmit` when nothing else happens between its call and
its settling: `submitStart`, the `try` block, then `submitComplete`, with the
final state and the effects performed. It returns at once when no file is
selected. The handler suspends at every `await`; runs in which other handlers
act on the cells meanwhile are those of `run` below, where `submitStart` and
`submitComplete` are separate events. -/
def handleSubmit (fetch : Nat → FetchOutcome) (s : State) : State × List Effect :=
  match s.selectedFile with
  | none => (s, [])
  | some file =>
    let result := tryBlock fetch file
    (submitComplete result.1 (submitStart s), result.2)

/-- Number of requests in a log. -/
def requestCount (log : List Effect) : Nat :=
  (log.filter (fun e => match e with | Effect.request _ _ => true | Effect.wait _ => false)).length

/-- Durations of the waits of a log, in order. -/
def delays (log : List Effect) : List Nat :=
  log.filterMap (fun e => match e with | Effect.request _ _ => none | Effect.wait ms => some ms)

/-- The effects of a run that reaches the third request: three requests
separated by waits of 1000 ms and 2000 ms. -/
def fullLog (file : File) : List Effect :=
  [Effect.request API_URL file, Effect.wait 1000, Effect.request API_URL file,
   Effect.wait 2000, Effect.request API_URL file]

/-- An attempt after which the loop does not `break`: the call rejected, or
resolved with status 429. -/
def FetchOutcome.retries : FetchOutcome → Bool
  | FetchOutcome.resolved r => decide (r.status = 429)
  | FetchOutcome.rejected _ => true

/-- Value of `response` after an attempt that does not break out of the loop. -/
def FetchOutcome.kept (prev : Option Response) : FetchOutcome → Option Response
  | FetchOutcome.resolved r => some r
  | FetchOutcome.rejected _ => prev

/-! ## Selection manager (`handleFileChange`, `resetApp`) -/

/-- JavaScript `text.startsWith(head)`. -/
def startsWith (text head : String) : Bool :=
  head.toList.isPrefixOf text.toList

/-- Result of `URL.createObjectURL(file)`: a URL of scheme `blob:`, the rest of
which (origin and identifier) is chosen by the browser. -/
def createObjectURL (rest : String) : String :=
  "blob:" ++ rest

/-- Message set by `handleFileChange` for a file that is not an image. -/
def validationMessage : String := "Please select a valid image file."

/-- Handler `handleFileChange`: `file` is `event.target.files[0]` (`none` when the
list is empty) and `rest` determines the object URL the browser would mint. -/
def handleFileChange (file : Option File) (rest : String) (s : State) : State :=
  match file with
  | none => s
  | some f =>
    if !startsWith f.type "image/" then { s with error := some validationMessage }
    else
      { s with selectedFile := some f, previewUrl := some (createObjectURL rest),
               prediction := Json.null, error := none }

/-- Handler `resetApp`. -/
def resetApp (s : State) : State :=
  { s with selectedFile := none, previewUrl := none, prediction := Json.null, error := none }

/-! ## Request state, as the render conditions read it -/

/-- Submitting: the spinner condition `isLoading`. -/
def isSubmitting (s : State) : Bool := s.isLoading

/-- Succeeded: a prediction is held (`prediction` is not `null`). -/
def isSucceeded (s : State) : Bool := s.prediction.isNonNull

/-- Failed: a message is held (`error` is not `null`). -/
def isFailed (s : State) : Bool := s.error.isSome

/-- Idle: none of the other three. -/
def isIdle (s : State) : Bool := !s.isLoading && !s.prediction.isNonNull && !s.error.isSome

/-- Number of request states that hold of `s`. -/
def statesHolding (s : State) : Nat :=
  (if isIdle s then 1 else 0) + (if isSubmitting s then 1 else 0) +
    (if isSucceeded s then 1 else 0) + (if isFailed s then 1 else 0)

/-- Render condition `error && (...)` of the error panel. -/
def errorPanelShown (s : State) : Bool := truthyString s.error

/-- Render condition `prediction && (...)` of the result panel. -/
def resultPanelShown (s : State) : Bool := s.prediction.truthy

/-! ## The component as a transition system -/

/-- The cells, together with the call of `handleSubmit` that has not settled
yet, represented by the file it captured in `formData`. -/
structure Session where
  ui : State
  pending : Option File

/-- Session of a freshly mounted component. -/
def initialSession : Session := { ui := initialState, pending := none }

/-- Events the component reacts to: the change event of the file input, a click
on the Remove Image button, the submission of the form, and the settling of the
pending `handleSubmit` against a network `fetch`. -/
inductive UiEvent where
  | fileChosen (file : Option File) (rest : String)
  | removeClicked
  | submitted
  | settled (fetch : Nat → FetchOutcome)

/-- Which events the rendered controls admit: the file input exists only in the
`!previewUrl` branch, the Remove Image button only in the other branch, the
submit button is `disabled={!selectedFile || isLoading}`, and only a pending
call can settle. -/
def enabled (s : Session) : UiEvent → Bool
  | UiEvent.fileChosen _ _ => !truthyString s.ui.previewUrl
  | UiEvent.removeClicked => truthyString s.ui.previewUrl
  | UiEvent.submitted => s.ui.selectedFile.isSome && !s.ui.isLoading
  | UiEvent.settled _ => s.pending.isSome

/-- Effect of an event on the session. The setters called when a pending
`handleSubmit` settles act on the cells as they are at that moment. -/
def dispatch (s : Session) : UiEvent → Session
  | UiEvent.fileChosen file rest => { s with ui := handleFileChange file rest s.ui }
  | UiEvent.removeClicked => { s with ui := resetApp s.ui }
  | UiEvent.submitted =>
    match s.ui.selectedFile with
    | none => s
    | some file => { ui := submitStart s.ui, pending := some file }
  | UiEvent.settled fetch =>
    match s.pending with
    | none => s
    | some file => { ui := submitComplete (tryBlock fetch file).1 s.ui, pending := none }

/-- Session reached by a sequence of events, `none` if one of them is not admitted. -/
def run (s : Session) : List UiEvent → Option Session
  | [] => some s
  | e :: es => if enabled s e then run (dispatch s e) es else none

/-- Admission of events when, in addition, the selection is left alone while a
submission is pending. -/
def enabledSerial (s : Session) (e : UiEvent) : Bool :=
  enabled s e &&
    match e with
    | UiEvent.fileChosen _ _ => s.pending.isNone
    | UiEvent.removeClicked => s.pending.isNone
    | UiEvent.submitted => true
    | UiEvent.settled _ => true

/-- Session reached by a sequence of events admitted by `enabledSerial`. -/
def runSerial (s : Session) : List UiEvent → Option Session
  | [] => some s
  | e :: es => if enabledSerial s e then runSerial (dispatch s e) es else none

/-- How many of `isLoading`, `prediction !== null`, `error !== null` are true. -/
def flagsSet (s : State) : Nat :=
  (if s.isLoading then 1 else 0) + (if s.prediction.isNonNull then 1 else 0) +
    (if s.error.isSome then 1 else 0)

/-- Invariant of the sessions reached by `runSerial`. -/
def Coherent (s : Session) : Prop :=
  (s.ui.selectedFile.isSome = true → truthyString s.ui.previewUrl = true) ∧
  (s.pending.isSome = s.ui.isLoading) ∧
  (s.ui.isLoading = true →
    s.ui.selectedFile.isSome = true ∧ s.ui.prediction.isNonNull = false ∧ s.ui.error = none) ∧
  (s.ui.prediction.isNonNull = true →
    truthyString s.ui.previewUrl = true ∧ s.ui.error = none)

/-! ## Result renderer: `getEmotionEmoji` -/

/-- JavaScript `text.toLowerCase()` on the letters `A` to `Z`; every other
character is left as it is. -/
def toLowerCase (text : String) : String :=
  String.mk (text.toList.map Char.toLower)

/-- What a property read on an object literal can produce: a string stored in
the literal, or the member of `Object.prototype` of that name, reached through
the prototype chain (a function or an object, never a string). -/
inductive PropertyValue where
  | text (s : String)
  | builtin (name : String)
deriving DecidableEq, Repr

/-- JavaScript truthiness of a property value: members of `Object.prototype`
are functions or objects, hence truthy. -/
def PropertyValue.truthy : PropertyValue → Bool
  | PropertyValue.text s => decide (s ≠ "")
  | PropertyValue.builtin _ => true

/-- Own properties of the literal `map` of `getEmotionEmoji`. -/
def getEmotionEmoji.map : List (String × String) :=
  [("happy", "🥰"), ("sad", "🥺"), ("angry", "😠"), ("relaxed", "😌"),
   ("scared", "😨"), ("playful", "🎾"), ("aggressive", "😡")]

/-- Property names of `Object.prototype`, the prototype of every object literal. -/
def objectPrototypeNames : List String :=
  ["constructor", "__defineGetter__", "__defineSetter__", "hasOwnProperty",
   "__lookupGetter__", "__lookupSetter__", "isPrototypeOf", "propertyIsEnumerable",
   "toString", "valueOf", "__proto__", "toLocaleString"]

/-- Property read `map[key]`: an own property if there is one, otherwise the
member of `Object.prototype` of that name, otherwise `undefined` (`none`). -/
def getEmotionEmoji.lookup (key : String) : Option PropertyValue :=
  match getEmotionEmoji.map.lookup key with
  | some glyph => some (PropertyValue.text glyph)
  | none =>
    if objectPrototypeNames.contains key then some (PropertyValue.builtin key) else none

/-- Right operand of `||` in `getEmotionEmoji`. -/
def defaultEmoji : String := "🐶"

/-- Helper `getEmotionEmoji`: `map[emotion.toLowerCase()] || '🐶'`. -/
def getEmotionEmoji (emotion : String) : PropertyValue :=
  match getEmotionEmoji.lookup (toLowerCase emotion) with
  | some v => if v.truthy then v else PropertyValue.text defaultEmoji
  | none => PropertyValue.text defaultEmoji

/-! ## Result renderer: the analysis breakdown -/

/-- Array index of ECMAScript: the key is the canonical decimal numeral of an
integer from 0 to 2^32 - 2. -/
def arrayIndex (key : String) : Option Nat :=
  let cs := key.toList
  if cs.isEmpty || !cs.all Char.isDigit || (decide (cs.length > 1) && cs.head? == some '0') then
    none
  else
    let n := cs.foldl (fun acc c => 10 * acc + (c.toNat - 48)) 0
    if n < 2 ^ 32 - 1 then some n else none

/-- `Object.entries(obj)` for an object whose own properties were created in
the order `props` (as `JSON.parse` creates them, in the order of the text):
the keys that are array indices come first, in ascending numeric order, then
the other keys in creation order. Probabilities are finite numbers, kept as
exact rationals. -/
def objectEntries (props : List (String × ℚ)) : List (String × ℚ) :=
  (props.filter (fun e => (arrayIndex e.1).isSome)).insertionSort
      (fun x y => (arrayIndex x.1).getD 0 ≤ (arrayIndex y.1).getD 0) ++
    props.filter (fun e => !(arrayIndex e.1).isSome)

/-- Comparator `([,a], [,b]) => b - a`. On finite numbers the sign of the
floating-point difference is the sign of the exact difference. -/
def compareEntries (x y : String × ℚ) : ℚ :=
  y.2 - x.2

/-- `Array.prototype.sort(compareEntries)`: a stable sort that leaves `x` before
`y` unless the comparator is positive on them. -/
def sortEntries (entries : List (String × ℚ)) : List (String × ℚ) :=
  entries.insertionSort (fun x y => compareEntries x y ≤ 0)

/-- Rows of the Analysis Breakdown:
`Object.entries(prediction.full_probabilities).sort(...).slice(0, 5)`, each
row showing the label and the probability of its entry. -/
def breakdownRows (fullProbabilities : List (String × ℚ)) : List (String × ℚ) :=
  (sortEntries (objectEntries fullProbabilities)).take 5

/-! ## Sample inputs -/

/-- The mapping of the rendering example of the specification. -/
def exampleProbabilities : List (String × ℚ) :=
  [("happy", 92.3), ("sad", 40.1), ("angry", 12.0), ("relaxed", 5.0), ("scared", 2.0),
   ("playful", 1.0)]

/-- A mapping whose labels are class numbers, the label `2` written first. -/
def numberedProbabilities : List (String × ℚ) :=
  [("2", 50), ("1", 50)]

/-- An image file as a browser reports it. -/
def dogPhoto : File := { name := "dog.png", type := "image/png" }

/-- A file that is not an image. -/
def notesFile : File := { name := "notes.txt", type := "text/plain" }

/-- A body of the shape the prediction endpoint documents. -/
def happyBody : Json :=
  Json.obj [("predicted_emotion", Json.str "happy"), ("confidence", Json.num 92.3),
    ("full_probabilities", Json.obj [("happy", Json.num 92.3), ("sad", Json.num 7.7)])]

/-- State after `dogPhoto` has been selected. -/
def photoSelected : State :=
  { selectedFile := some dogPhoto, previewUrl := some "blob:https://pawfeel.example/1",
    prediction := Json.null, isLoading := false, error := none }

/-- Response with status 429; its body is not JSON. -/
def rateLimited : Response := { status := 429, json := Except.error "Unexpected token 'T'" }

/-- Response with status 200 carrying `happyBody`. -/
def okHappy : Response := { status := 200, json := Except.ok happyBody }

/-- Response with status 200 and an empty body, on which `response.json()` rejects. -/
def okEmptyBody : Response := { status := 200, json := Except.error "Unexpected end of JSON input" }

/-- Network answering 429 twice, then 200 with `happyBody`. -/
def limitedTwice : Nat → FetchOutcome
  | 0 => FetchOutcome.resolved rateLimited
  | 1 => FetchOutcome.resolved rateLimited
  | _ => FetchOutcome.resolved okHappy

/-- Network answering 429 once, failing at transport level once, then answering 429. -/
def neverAvailable : Nat → FetchOutcome
  | 1 => FetchOutcome.rejected "Failed to fetch"
  | _ => FetchOutcome.resolved rateLimited

/-- Network answering 200 with `happyBody` at once. -/
def alwaysHappy : Nat → FetchOutcome := fun _ => FetchOutcome.resolved okHappy

/-- Network answering 200 with an empty body. -/
def emptyBodies : Nat → FetchOutcome := fun _ => FetchOutcome.resolved okEmptyBody

/-- A selection changed while a submission is pending: choose `dogPhoto`, submit,
remove the image, choose `notesFile`, and only then does the submission settle. -/
def overlapTrace : List UiEvent :=
  [UiEvent.fileChosen (some dogPhoto) "https://pawfeel.example/1", UiEvent.submitted,
   UiEvent.removeClicked, UiEvent.fileChosen (some notesFile) "https://pawfeel.example/2",
   UiEvent.settled alwaysHappy]

/-- The selection changed while a submission is pending that meets 429 twice and
then 200: choose `dogPhoto`, submit, remove the image, choose `notesFile`, and
then the submission settles against `limitedTwice`. -/
def overlapLimitedTrace : List UiEvent :=
  [UiEvent.fileChosen (some dogPhoto) "https://pawfeel.example/1", UiEvent.submitted,
   UiEvent.removeClicked, UiEvent.fileChosen (some notesFile) "https://pawfeel.example/2",
   UiEvent.settled limitedTwice]

/-- Response with status 200 whose body is the JSON text `null`. -/
def okNullBody : Response := { status := 200, json := Except.ok Json.null }

/-- Network answering 200 with the body `null`. -/
def nullBodies : Nat → FetchOutcome := fun _ => FetchOutcome.resolved okNullBody

/-- An uninterrupted use: choose `dogPhoto`, submit, the submission settles. -/
def plainTrace : List UiEvent :=
  [UiEvent.fileChosen (some dogPhoto) "https://pawfeel.example/1", UiEvent.submitted,
   UiEvent.settled alwaysHappy]

/-! ## Theorems -/

theorem retryLoop_done (fetch : Nat → FetchOutcome) (file : File) (i : Nat) (st : LoopState)
    (hi : ¬ i < MAX_RETRIES) : retryLoop fetch file i st = st := by
  rw [retryLoop, if_neg hi]

theorem retryLoop_break (fetch : Nat → FetchOutcome) (file : File) (i : Nat) (st : LoopState)
    (r : Response) (hi : i < MAX_RETRIES) (hf : fetch i = FetchOutcome.resolved r)
    (hs : r.status ≠ 429) :
    retryLoop fetch file i st =
      { st with log := st.log ++ [Effect.request API_URL file], response := some r } := by
  rw [retryLoop, if_pos hi]
  simp [hf, hs]

theorem retryLoop_limited (fetch : Nat → FetchOutcome) (file : File) (i : Nat) (st : LoopState)
    (r : Response) (hi : i < MAX_RETRIES) (hf : fetch i = FetchOutcome.resolved r)
    (hs : r.status = 429) :
    retryLoop fetch file i st =
      retryLoop fetch file (i + 1)
        (backoff i { st with log := st.log ++ [Effect.request API_URL file],
                             response := some r }) := by
  rw [retryLoop, if_pos hi]
  simp [hf, hs]

theorem retryLoop_rejected (fetch : Nat → FetchOutcome) (file : File) (i : Nat) (st : LoopState)
    (m : String) (hi : i < MAX_RETRIES) (hf : fetch i = FetchOutcome.rejected m) :
    retryLoop fetch file i st =
      retryLoop fetch file (i + 1)
        (backoff i { st with log := st.log ++ [Effect.request API_URL file] }) := by
  rw [retryLoop, if_pos hi]
  simp [hf]

theorem retryLoop_retry (fetch : Nat → FetchOutcome) (file : File) (i : Nat) (st : LoopState)
    (hi : i < MAX_RETRIES) (h : (fetch i).retries = true) :
    retryLoop fetch file i st =
      retryLoop fetch file (i + 1)
        (backoff i { st with log := st.log ++ [Effect.request API_URL file],
                             response := (fetch i).kept st.response }) := by
  cases hf : fetch i with
  | resolved r =>
    have hs : r.status = 429 := by simpa [hf, FetchOutcome.retries] using h
    rw [retryLoop_limited fetch file i st r hi hf hs]
    simp [FetchOutcome.kept]
  | rejected m =>
    rw [retryLoop_rejected fetch file i st m hi hf]
    simp [FetchOutcome.kept]

theorem kept_not_ok (prev : Option Response) (o : FetchOutcome) (h : o.retries = true)
    (hprev : ∀ r, prev = some r → r.ok = false) :
    ∀ r, o.kept prev = some r → r.ok = false := by
  intro r hr
  cases o with
  | resolved r0 =>
    simp only [FetchOutcome.kept, Option.some.injEq] at hr
    subst hr
    have hs : r0.status = 429 := by simpa [FetchOutcome.retries] using h
    simp [Response.ok, hs]
  | rejected m => exact hprev r (by simpa [FetchOutcome.kept] using hr)

theorem retryLoop_exhausted (fetch : Nat → FetchOutcome) (file : File)
    (hall : ∀ i, i < 3 → (fetch i).retries = true) :
    (retryLoop fetch file 0 loopInit).log = fullLog file ∧
    ∀ r, (retryLoop fetch file 0 loopInit).response = some r → r.ok = false := by
  rw [retryLoop_retry fetch file 0 _ (by decide) (hall 0 (by decide)),
    retryLoop_retry fetch file 1 _ (by decide) (hall 1 (by decide)),
    retryLoop_retry fetch file 2 _ (by decide) (hall 2 (by decide)),
    retryLoop_done fetch file 3 _ (by decide)]
  refine ⟨by simp [backoff, loopInit, fullLog], ?_⟩
  simp only [backoff, loopInit]
  simp only [show (0 : Nat) < MAX_RETRIES - 1 from by decide,
    show (1 : Nat) < MAX_RETRIES - 1 from by decide,
    show ¬ (2 : Nat) < MAX_RETRIES - 1 from by decide, if_true, if_false]
  exact kept_not_ok _ _ (hall 2 (by decide))
    (kept_not_ok _ _ (hall 1 (by decide))
      (kept_not_ok _ _ (hall 0 (by decide)) (by simp)))

/-- C2: when each of the three attempts resolves with status 429 or rejects,
three requests are sent, the waits are 1000 ms then 2000 ms with none after the
last attempt, and the run ends in Failed with the fixed message, whatever the
messages of the rejections were. -/
theorem handleSubmit_fails_when_retries_exhausted (fetch : Nat → FetchOutcome) (s : State)
    (file : File) (hfile : s.selectedFile = some file)
    (hall : ∀ i, i < 3 → (∃ m, fetch i = FetchOutcome.rejected m) ∨
      (∃ r, fetch i = FetchOutcome.resolved r ∧ r.status = 429)) :
    (handleSubmit fetch s).2 = fullLog file ∧
    requestCount (handleSubmit fetch s).2 = 3 ∧
    delays (handleSubmit fetch s).2 = [1000, 2000] ∧
    (handleSubmit fetch s).2.getLast? = some (Effect.request API_URL file) ∧
    (handleSubmit fetch s).1.error = some "Could not connect to the analysis engine." ∧
    (handleSubmit fetch s).1.prediction = Json.null ∧
    (handleSubmit fetch s).1.isLoading = false := by
  have hall' : ∀ i, i < 3 → (fetch i).retries = true := by
    intro i hi
    rcases hall i hi with ⟨m, hm⟩ | ⟨r, hr, hs⟩
    · simp [hm, FetchOutcome.retries]
    · simp [hr, hs, FetchOutcome.retries]
  obtain ⟨hlog, hresp⟩ := retryLoop_exhausted fetch file hall'
  have hrun : handleSubmit fetch s =
      (submitComplete (Except.error connectMessage) (submitStart s), fullLog file) := by
    simp only [handleSubmit, hfile, tryBlock]
    cases hr : (retryLoop fetch file 0 loopInit).response with
    | none => simp [hlog]
    | some r => simp [hresp r hr, hlog]
  rw [hrun]
  refine ⟨rfl, ?_, ?_, ?_, rfl, rfl, rfl⟩
  · simp [requestCount, fullLog]
  · simp [delays, fullLog]
  · simp [fullLog]

theorem handleSubmit_log (fetch : Nat → FetchOutcome) (s : State) (file : File)
    (hfile : s.selectedFile = some file) :
    (handleSubmit fetch s).2 = (retryLoop fetch file 0 loopInit).log := by
  simp only [handleSubmit, hfile, tryBlock]
  cases (retryLoop fetch file 0 loopInit).response with
  | none => rfl
  | some r => cases hok : r.ok <;> simp [hok]

theorem handleSubmit_state (fetch : Nat → FetchOutcome) (s : State) (file : File)
    (hfile : s.selectedFile = some file) :
    (handleSubmit fetch s).1 = submitComplete (tryBlock fetch file).1 (submitStart s) := by
  simp only [handleSubmit, hfile]

/-- C2, at a concrete run: `neverAvailable` from `photoSelected`. -/
theorem handleSubmit_fails_when_retries_exhausted_witness :
    photoSelected.selectedFile = some dogPhoto ∧
    neverAvailable 0 = FetchOutcome.resolved rateLimited ∧
    neverAvailable 1 = FetchOutcome.rejected "Failed to fetch" ∧
    neverAvailable 2 = FetchOutcome.resolved rateLimited ∧
    (handleSubmit neverAvailable photoSelected).2 = fullLog dogPhoto ∧
    (handleSubmit neverAvailable photoSelected).1.error =
      some "Could not connect to the analysis engine." :=
  have h := handleSubmit_fails_when_retries_exhausted neverAvailable photoSelected dogPhoto rfl
    (by
      intro i hi
      interval_cases i
      · exact Or.inr ⟨rateLimited, rfl, rfl⟩
      · exact Or.inl ⟨"Failed to fetch", rfl⟩
      · exact Or.inr ⟨rateLimited, rfl, rfl⟩)
  ⟨rfl, rfl, rfl, rfl, h.1, h.2.2.2.2.1⟩

/-- C3: a response whose status is not 429 ends the loop and is the response
kept. If attempt `k` (1 to 3) is the first to receive such a response, the
earlier ones having received 429 or nothing, then `k` requests are sent, `k - 1`
waits occur (1000 ms, then 2000 ms) and the last effect is the request of
attempt `k`. -/
theorem handleSubmit_stops_at_first_other_status (fetch : Nat → FetchOutcome) (s : State)
    (file : File) (k : Nat) (r : Response)
    (hfile : s.selectedFile = some file) (hk1 : 1 ≤ k) (hk3 : k ≤ 3)
    (hprev : ∀ j, j + 1 < k → (∃ m, fetch j = FetchOutcome.rejected m) ∨
      (∃ r0, fetch j = FetchOutcome.resolved r0 ∧ r0.status = 429))
    (hat : fetch (k - 1) = FetchOutcome.resolved r) (hs : r.status ≠ 429) :
    (retryLoop fetch file 0 loopInit).response = some r ∧
    (handleSubmit fetch s).2 = (fullLog file).take (2 * k - 1) ∧
    requestCount (handleSubmit fetch s).2 = k ∧
    delays (handleSubmit fetch s).2 = [1000, 2000].take (k - 1) ∧
    (delays (handleSubmit fetch s).2).length = k - 1 ∧
    (handleSubmit fetch s).2.getLast? = some (Effect.request API_URL file) := by
  have hprev' : ∀ j, j + 1 < k → (fetch j).retries = true := by
    intro j hj
    rcases hprev j hj with ⟨m, hm⟩ | ⟨r0, hr, hs0⟩
    · simp [hm, FetchOutcome.retries]
    · simp [hr, hs0, FetchOutcome.retries]
  rw [handleSubmit_log fetch s file hfile]
  interval_cases k
  · rw [retryLoop_break fetch file 0 _ r (by decide) hat hs]
    simp [loopInit, fullLog, requestCount, delays]
  · rw [retryLoop_retry fetch file 0 _ (by decide) (hprev' 0 (by decide)),
      retryLoop_break fetch file 1 _ r (by decide) hat hs]
    simp [loopInit, backoff, fullLog, requestCount, delays]
  · rw [retryLoop_retry fetch file 0 _ (by decide) (hprev' 0 (by decide)),
      retryLoop_retry fetch file 1 _ (by decide) (hprev' 1 (by decide)),
      retryLoop_break fetch file 2 _ r (by decide) hat hs]
    simp [loopInit, backoff, fullLog, requestCount, delays]

/-- C3, at a concrete run: a first response of status 200 gives one request and no wait. -/
theorem handleSubmit_stops_at_first_other_status_witness :
    photoSelected.selectedFile = some dogPhoto ∧
    alwaysHappy 0 = FetchOutcome.resolved okHappy ∧ okHappy.status = 200 ∧
    (handleSubmit alwaysHappy photoSelected).2 = [Effect.request API_URL dogPhoto] ∧
    requestCount (handleSubmit alwaysHappy photoSelected).2 = 1 ∧
    delays (handleSubmit alwaysHappy photoSelected).2 = [] :=
  have h := handleSubmit_stops_at_first_other_status alwaysHappy photoSelected dogPhoto 1 okHappy
    rfl (by decide) (by decide) (fun j hj => absurd hj (by omega)) rfl (by decide)
  ⟨rfl, rfl, rfl, h.2.1, h.2.2.1, h.2.2.2.1⟩

theorem tryBlock_of_break (fetch : Nat → FetchOutcome) (file : File) (r : Response)
    (hf : fetch 0 = FetchOutcome.resolved r) (hs : r.status ≠ 429) (hok : r.ok = true) :
    tryBlock fetch file = (r.json, [Effect.request API_URL file]) := by
  have h := retryLoop_break fetch file 0 loopInit r (by decide) hf hs
  simp only [tryBlock, h]
  simp [hok, loopInit]

/-- C4 as stated fails: when the kept response is ok and `response.json()`
rejects, the message shown is the one of the parser's error. -/
theorem handleSubmit_parse_failure_message :
    (handleSubmit emptyBodies photoSelected).1.error = some "Unexpected end of JSON input" ∧
    (handleSubmit emptyBodies photoSelected).1.error ≠
      some "Could not connect to the analysis engine." ∧
    (handleSubmit emptyBodies photoSelected).1.prediction = Json.null ∧
    (handleSubmit emptyBodies photoSelected).1.isLoading = false := by
  have h : tryBlock emptyBodies dogPhoto =
      (Except.error "Unexpected end of JSON input", [Effect.request API_URL dogPhoto]) :=
    tryBlock_of_break emptyBodies dogPhoto okEmptyBody rfl (by decide) (by decide)
  rw [handleSubmit_state emptyBodies photoSelected dogPhoto rfl, h]
  refine ⟨rfl, ?_, rfl, rfl⟩
  simp [submitComplete]

/-- C4, amended: with a file selected, a run in which no response was ever
obtained, or whose kept response is not ok, ends with the fixed message; a run
whose kept response is ok but whose body parser throws ends with the message of
the thrown error; every other run ends in Succeeded. In all three cases
`isLoading` is false at the end. -/
theorem handleSubmit_failure_message (fetch : Nat → FetchOutcome) (s : State) (file : File)
    (hfile : s.selectedFile = some file) :
    ((retryLoop fetch file 0 loopInit).response = none ∨
        (∃ r, (retryLoop fetch file 0 loopInit).response = some r ∧ r.ok = false) →
      (handleSubmit fetch s).1.error = some "Could not connect to the analysis engine." ∧
      (handleSubmit fetch s).1.prediction = Json.null ∧
      (handleSubmit fetch s).1.isLoading = false) ∧
    (∀ r m, (retryLoop fetch file 0 loopInit).response = some r → r.ok = true →
        r.json = Except.error m →
      (handleSubmit fetch s).1.error = some m ∧
      (handleSubmit fetch s).1.prediction = Json.null ∧
      (handleSubmit fetch s).1.isLoading = false) ∧
    (∀ r data, (retryLoop fetch file 0 loopInit).response = some r → r.ok = true →
        r.json = Except.ok data →
      (handleSubmit fetch s).1.error = none ∧
      (handleSubmit fetch s).1.prediction = data ∧
      (handleSubmit fetch s).1.isLoading = false) := by
  rw [handleSubmit_state fetch s file hfile]
  refine ⟨?_, ?_, ?_⟩
  · rintro (h | ⟨r, h, hok⟩)
    · simp [tryBlock, h, submitComplete, submitStart, connectMessage]
    · simp [tryBlock, h, hok, submitComplete, submitStart, connectMessage]
  · intro r m h hok hjson
    simp [tryBlock, h, hok, hjson, submitComplete, submitStart]
  · intro r data h hok hjson
    simp [tryBlock, h, hok, hjson, submitComplete, submitStart]

/-- C4, amended, at concrete runs: exhausted retries give the fixed message. -/
theorem handleSubmit_failure_message_witness :
    photoSelected.selectedFile = some dogPhoto ∧
    (retryLoop neverAvailable dogPhoto 0 loopInit).response = some rateLimited ∧
    rateLimited.ok = false ∧
    (handleSubmit neverAvailable photoSelected).1.error =
      some "Could not connect to the analysis engine." := by
  have hresp : (retryLoop neverAvailable dogPhoto 0 loopInit).response = some rateLimited := by
    rw [retryLoop_retry neverAvailable dogPhoto 0 _ (by decide) rfl,
      retryLoop_retry neverAvailable dogPhoto 1 _ (by decide) rfl,
      retryLoop_retry neverAvailable dogPhoto 2 _ (by decide) rfl,
      retryLoop_done neverAvailable dogPhoto 3 _ (by decide)]
    rfl
  exact ⟨rfl, hresp, by decide,
    ((handleSubmit_failure_message neverAvailable photoSelected dogPhoto rfl).1
      (Or.inr ⟨rateLimited, hresp, by decide⟩)).1⟩

/-- C5 as stated fails: rejecting a file that is not an image stores the
validation message in `error`, so a state that was not Failed becomes Failed
and shows the error panel. -/
theorem handleFileChange_rejection_sets_failed :
    startsWith notesFile.type "image/" = false ∧
    isFailed initialState = false ∧
    isFailed (handleFileChange (some notesFile) "https://pawfeel.example/1" initialState) = true ∧
    (handleFileChange (some notesFile) "https://pawfeel.example/1" initialState).error =
      some "Please select a valid image file." ∧
    errorPanelShown
      (handleFileChange (some notesFile) "https://pawfeel.example/1" initialState) = true := by
  have h : startsWith notesFile.type "image/" = false := by decide
  refine ⟨h, rfl, rfl, rfl, ?_⟩
  simp [errorPanelShown, truthyString, handleFileChange, h, validationMessage, initialState]

/-- C5, amended: for a file whose declared type does not start with `image/`,
`handleFileChange` changes nothing but `error`: `selectedFile`, `previewUrl`,
`prediction` and `isLoading` are as before, and `error` holds the validation
message, so the state read from the cells is Failed with that message. -/
theorem handleFileChange_non_image (f : File) (rest : String) (s : State)
    (h : startsWith f.type "image/" = false) :
    handleFileChange (some f) rest s =
      { s with error := some "Please select a valid image file." } ∧
    (handleFileChange (some f) rest s).selectedFile = s.selectedFile ∧
    (handleFileChange (some f) rest s).previewUrl = s.previewUrl ∧
    (handleFileChange (some f) rest s).prediction = s.prediction ∧
    (handleFileChange (some f) rest s).isLoading = s.isLoading ∧
    isFailed (handleFileChange (some f) rest s) = true := by
  simp [handleFileChange, h, validationMessage, isFailed]

/-- C5, amended, at a concrete input: `notesFile` chosen while a result is shown. -/
theorem handleFileChange_non_image_witness :
    startsWith notesFile.type "image/" = false ∧
    (handleFileChange (some notesFile) "x" { photoSelected with prediction := happyBody }).prediction
      = happyBody ∧
    (handleFileChange (some notesFile) "x" { photoSelected with prediction := happyBody }).error
      = some "Please select a valid image file." :=
  have h := handleFileChange_non_image notesFile "x"
    { photoSelected with prediction := happyBody } (by decide)
  ⟨by decide, h.2.2.2.1, by rw [h.1]⟩

/-- C9: `resetApp` leaves `selectedFile`, `previewUrl`, `prediction` and `error`
null in every state, and applying it twice is the same as applying it once. -/
theorem resetApp_idempotent (s : State) :
    (resetApp s).selectedFile = none ∧
    (resetApp s).previewUrl = none ∧
    (resetApp s).prediction = Json.null ∧
    (resetApp s).error = none ∧
    resetApp (resetApp s) = resetApp s :=
  ⟨rfl, rfl, rfl, rfl, rfl⟩

/-- C10: for a file whose declared type starts with `image/`, `handleFileChange`
stores the file, stores the object URL derived for it, and leaves `prediction`
and `error` null, whatever the prior state. -/
theorem handleFileChange_image (f : File) (rest : String) (s : State)
    (h : startsWith f.type "image/" = true) :
    (handleFileChange (some f) rest s).selectedFile = some f ∧
    (handleFileChange (some f) rest s).previewUrl = some (createObjectURL rest) ∧
    (handleFileChange (some f) rest s).prediction = Json.null ∧
    (handleFileChange (some f) rest s).error = none ∧
    (handleFileChange (some f) rest s).isLoading = s.isLoading := by
  simp [handleFileChange, h]

/-- C10, at a concrete input: `dogPhoto` chosen over a state holding a result and an error. -/
theorem handleFileChange_image_witness :
    startsWith dogPhoto.type "image/" = true ∧
    (handleFileChange (some dogPhoto) "x"
      { photoSelected with prediction := happyBody, error := some "old" }).prediction = Json.null ∧
    (handleFileChange (some dogPhoto) "x"
      { photoSelected with prediction := happyBody, error := some "old" }).error = none :=
  have h := handleFileChange_image dogPhoto "x"
    { photoSelected with prediction := happyBody, error := some "old" } (by decide)
  ⟨by decide, h.2.2.1, h.2.2.2.1⟩

theorem truthy_createObjectURL (rest : String) :
    truthyString (some (createObjectURL rest)) = true := by
  have h : createObjectURL rest ≠ "" := by
    intro h
    have hd := congrArg String.length h
    simp only [createObjectURL, String.length_append] at hd
    have h5 : "blob:".length = 5 := by decide
    have h0 : "".length = 0 := by decide
    omega
  simp [truthyString, h]

theorem tryBlock_alwaysHappy (file : File) :
    tryBlock alwaysHappy file = (Except.ok happyBody, [Effect.request API_URL file]) :=
  tryBlock_of_break alwaysHappy file okHappy rfl (by decide) (by decide)

/-- C6 as stated fails: the controls admit a run in which the selection is
changed while a submission is pending, and it ends with a prediction and an
error both held, so two request states hold and both panels are shown. -/
theorem overlapTrace_shows_both_panels :
    (run initialSession overlapTrace).map
        (fun s => (s.ui.isLoading, s.ui.prediction.isNonNull, s.ui.error.isSome,
          errorPanelShown s.ui, resultPanelShown s.ui, flagsSet s.ui, statesHolding s.ui)) =
      some (false, true, true, true, true, 2, 2) := by
  have h1 : truthyString (some (createObjectURL "https://pawfeel.example/1")) = true :=
    truthy_createObjectURL _
  have h0 : truthyString none = false := rfl
  have hd : startsWith dogPhoto.type "image/" = true := by decide
  have hn : startsWith notesFile.type "image/" = false := by decide
  have hrun : run initialSession overlapTrace =
      some { ui := { selectedFile := none, previewUrl := none, prediction := happyBody,
                     isLoading := false, error := some validationMessage },
             pending := none } := by
    simp [overlapTrace, run, enabled, dispatch, initialSession, initialState, handleFileChange,
      hd, hn, h1, h0, submitStart, resetApp, tryBlock_alwaysHappy, submitComplete]
  rw [hrun]
  rfl

theorem coherent_initial : Coherent initialSession := by
  simp [Coherent, initialSession, initialState, Json.isNonNull]

theorem coherent_dispatch (s : Session) (e : UiEvent) (h : Coherent s)
    (he : enabledSerial s e = true) : Coherent (dispatch s e) := by
  obtain ⟨⟨sel, prev, pred, load, err⟩, pend⟩ := s
  obtain ⟨hA, hB, hC, hD⟩ := h
  simp only at hA hB hC hD
  cases e with
  | fileChosen file rest =>
    simp only [enabledSerial, enabled, Bool.and_eq_true, Bool.not_eq_true',
      Option.isNone_iff_eq_none] at he
    obtain ⟨hprev, hpend⟩ := he
    subst hpend
    have hload : load = false := by simpa using hB.symm
    subst hload
    cases file with
    | none => exact ⟨hA, hB, hC, hD⟩
    | some f =>
      cases hsw : startsWith f.type "image/" with
      | false =>
        refine ⟨?_, ?_, ?_, ?_⟩ <;> simp only [dispatch, handleFileChange, hsw]
        · simpa using hA
        · simp
        · simp
        · intro hp
          have := (hD hp).1
          simp [hprev] at this
      | true =>
        refine ⟨?_, ?_, ?_, ?_⟩ <;> simp only [dispatch, handleFileChange, hsw]
        · intro _
          exact truthy_createObjectURL rest
        · simp
        · simp
        · simp [Json.isNonNull]
  | removeClicked =>
    simp only [enabledSerial, enabled, Bool.and_eq_true, Option.isNone_iff_eq_none] at he
    obtain ⟨_, hpend⟩ := he
    subst hpend
    have hload : load = false := by simpa using hB.symm
    subst hload
    simp [Coherent, dispatch, resetApp, Json.isNonNull]
  | submitted =>
    simp only [enabledSerial, enabled, Bool.and_eq_true, Bool.not_eq_true', and_true] at he
    obtain ⟨hsel, hload⟩ := he
    subst hload
    cases sel with
    | none => simp at hsel
    | some file =>
      refine ⟨?_, ?_, ?_, ?_⟩ <;> simp only [dispatch, submitStart]
      · simpa using hA
      · simp
      · simp [Json.isNonNull]
      · simp [Json.isNonNull]
  | settled fetch =>
    simp only [enabledSerial, enabled, Bool.and_eq_true, and_true] at he
    cases pend with
    | none => simp at he
    | some file =>
      have hload : load = true := by simpa using hB.symm
      subst hload
      obtain ⟨hsel, hpred, herr⟩ := hC rfl
      subst herr
      cases hout : (tryBlock fetch file).1 with
      | ok data =>
        refine ⟨?_, ?_, ?_, ?_⟩ <;> simp only [dispatch, hout, submitComplete]
        · simpa using hA
        · simp
        · simp
        · intro _
          exact ⟨hA hsel, trivial⟩
      | error m =>
        refine ⟨?_, ?_, ?_, ?_⟩ <;> simp only [dispatch, hout, submitComplete]
        · simpa using hA
        · simp
        · simp
        · intro hp
          simp [hpred] at hp

theorem coherent_runSerial (es : List UiEvent) :
    ∀ s t : Session, Coherent s → runSerial s es = some t → Coherent t := by
  induction es with
  | nil =>
    intro s t hs hrun
    simp only [runSerial, Option.some.injEq] at hrun
    exact hrun ▸ hs
  | cons e es ih =>
    intro s t hs hrun
    cases he : enabledSerial s e with
    | false => simp [runSerial, he] at hrun
    | true =>
      simp only [runSerial, he, if_true] at hrun
      exact ih (dispatch s e) t (coherent_dispatch s e hs he) hrun

theorem truthy_isNonNull (j : Json) (h : j.truthy = true) : j.isNonNull = true := by
  cases j <;> simp_all [Json.truthy, Json.isNonNull]

theorem truthyString_isSome (o : Option String) (h : truthyString o = true) :
    o.isSome = true := by
  cases o <;> simp_all [truthyString]

theorem coherent_exclusive (s : Session) (h : Coherent s) :
    flagsSet s.ui ≤ 1 ∧ statesHolding s.ui = 1 ∧
    ¬ (errorPanelShown s.ui = true ∧ resultPanelShown s.ui = true) := by
  obtain ⟨_, _, hC, hD⟩ := h
  have key : flagsSet s.ui ≤ 1 := by
    cases hl : s.ui.isLoading with
    | true =>
      obtain ⟨_, hp, he⟩ := hC hl
      simp [flagsSet, hl, hp, he]
    | false =>
      cases hp : s.ui.prediction.isNonNull with
      | true =>
        obtain ⟨_, he⟩ := hD hp
        simp [flagsSet, hl, hp, he]
      | false =>
        simp only [flagsSet, hl, hp]
        cases he : s.ui.error.isSome <;> simp
  refine ⟨key, ?_, ?_⟩
  · simp only [flagsSet] at key
    simp only [statesHolding, isIdle, isSubmitting, isSucceeded, isFailed]
    by_cases hl : s.ui.isLoading = true <;> by_cases hp : s.ui.prediction.isNonNull = true <;>
      by_cases he : s.ui.error.isSome = true <;> simp_all
  · rintro ⟨he, hp⟩
    have he' := truthyString_isSome _ he
    have hp' := truthy_isNonNull _ hp
    revert key
    simp [flagsSet, he', hp']

theorem run_of_runSerial (es : List UiEvent) :
    ∀ s t : Session, runSerial s es = some t → run s es = some t := by
  induction es with
  | nil => intro s t h; simpa [runSerial, run] using h
  | cons e es ih =>
    intro s t h
    cases he : enabledSerial s e with
    | false => simp [runSerial, he] at h
    | true =>
      have hen : enabled s e = true := by
        simp only [enabledSerial, Bool.and_eq_true] at he
        exact he.1
      simp only [runSerial, he, if_true] at h
      simp only [run, hen, if_true]
      exact ih _ _ h

theorem handleSubmit_as_events (fetch : Nat → FetchOutcome) (s : State) (file : File)
    (hfile : s.selectedFile = some file) :
    (dispatch (dispatch { ui := s, pending := none } UiEvent.submitted)
      (UiEvent.settled fetch)).ui = (handleSubmit fetch s).1 := by
  simp [dispatch, hfile, handleSubmit]

/-- C6, amended: in every session reached from the initial one by events the
controls admit, with no file chosen or removed while a submission is pending, at
most one of `isLoading`, `prediction !== null`, `error !== null` is true, exactly
one of Idle, Submitting, Succeeded, Failed holds, and the error panel and the
result panel are not shown together. -/
theorem runSerial_exclusive (es : List UiEvent) (s : Session)
    (h : runSerial initialSession es = some s) :
    flagsSet s.ui ≤ 1 ∧ statesHolding s.ui = 1 ∧
    ¬ (errorPanelShown s.ui = true ∧ resultPanelShown s.ui = true) :=
  coherent_exclusive s (coherent_runSerial es initialSession s coherent_initial h)

theorem runSerial_plainTrace :
    runSerial initialSession plainTrace =
      some { ui := { selectedFile := some dogPhoto,
                     previewUrl := some (createObjectURL "https://pawfeel.example/1"),
                     prediction := happyBody, isLoading := false, error := none },
             pending := none } := by
  have h1 : truthyString (some (createObjectURL "https://pawfeel.example/1")) = true :=
    truthy_createObjectURL _
  have h0 : truthyString none = false := rfl
  have hd : startsWith dogPhoto.type "image/" = true := by decide
  simp [plainTrace, runSerial, enabledSerial, enabled, dispatch, initialSession, initialState,
    handleFileChange, hd, h1, h0, submitStart, tryBlock_alwaysHappy, submitComplete]

/-- C6, amended, at a concrete run: `plainTrace` ends in Succeeded alone. -/
theorem runSerial_exclusive_witness :
    runSerial initialSession plainTrace =
      some { ui := { selectedFile := some dogPhoto,
                     previewUrl := some (createObjectURL "https://pawfeel.example/1"),
                     prediction := happyBody, isLoading := false, error := none },
             pending := none } ∧
    statesHolding { selectedFile := some dogPhoto,
                    previewUrl := some (createObjectURL "https://pawfeel.example/1"),
                    prediction := happyBody, isLoading := false, error := none } = 1 :=
  ⟨runSerial_plainTrace, (runSerial_exclusive plainTrace _ runSerial_plainTrace).2.1⟩

/-- C8 is violated by the code at the label `constructor`: the property read
finds `Object.prototype.constructor` through the prototype chain, which is
truthy, so that function is returned in place of the default glyph. The labels
`Happy`, `happy` and `tostring` behave as C8 says. -/
theorem getEmotionEmoji_constructor :
    getEmotionEmoji "constructor" = PropertyValue.builtin "constructor" ∧
    getEmotionEmoji "constructor" ≠ PropertyValue.text "🐶" ∧
    getEmotionEmoji "Constructor" ≠ PropertyValue.text "🐶" ∧
    getEmotionEmoji "Happy" = getEmotionEmoji "happy" ∧
    getEmotionEmoji "happy" = PropertyValue.text "🥰" ∧
    getEmotionEmoji "tostring" = PropertyValue.text "🐶" := by
  decide

theorem map_glyph_nonempty (key glyph : String)
    (h : getEmotionEmoji.map.lookup key = some glyph) : glyph ≠ "" := by
  simp only [getEmotionEmoji.map, List.lookup_cons, List.lookup_nil] at h
  repeat' split at h
  all_goals first
    | (simp only [Option.some.injEq] at h; subst h; decide)
    | simp at h

theorem getEmotionEmoji_cases (e : String) :
    (∀ glyph, getEmotionEmoji.map.lookup (toLowerCase e) = some glyph →
      getEmotionEmoji e = PropertyValue.text glyph) ∧
    (getEmotionEmoji.map.lookup (toLowerCase e) = none →
      toLowerCase e ∉ objectPrototypeNames →
      getEmotionEmoji e = PropertyValue.text "🐶") ∧
    (getEmotionEmoji.map.lookup (toLowerCase e) = none →
      toLowerCase e ∈ objectPrototypeNames →
      getEmotionEmoji e = PropertyValue.builtin (toLowerCase e)) := by
  refine ⟨?_, ?_, ?_⟩
  · intro glyph h
    have hne := map_glyph_nonempty _ _ h
    simp [getEmotionEmoji, getEmotionEmoji.lookup, h, PropertyValue.truthy, hne]
  · intro h hn
    simp [getEmotionEmoji, getEmotionEmoji.lookup, h, hn, defaultEmoji]
  · intro h hn
    simp [getEmotionEmoji, getEmotionEmoji.lookup, h, hn, PropertyValue.truthy]

theorem sortEntries_perm (entries : List (String × ℚ)) :
    (sortEntries entries).Perm entries :=
  List.perm_insertionSort _ entries

theorem sortEntries_descending (entries : List (String × ℚ)) :
    (sortEntries entries).Pairwise (fun x y => y.2 ≤ x.2) := by
  have htotal : IsTotal (String × ℚ) (fun x y => compareEntries x y ≤ 0) :=
    ⟨fun x y => by
      simp only [compareEntries, sub_nonpos]
      exact le_total y.2 x.2⟩
  have htrans : IsTrans (String × ℚ) (fun x y => compareEntries x y ≤ 0) :=
    ⟨fun x y z hxy hyz => by
      simp only [compareEntries, sub_nonpos] at *
      exact le_trans hyz hxy⟩
  have h := @List.sorted_insertionSort _ (fun x y => compareEntries x y ≤ 0) _ htotal htrans
    entries
  refine List.Pairwise.imp ?_ h
  intro x y hxy
  simpa [compareEntries] using hxy

theorem sortEntries_stable (entries : List (String × ℚ)) (v : ℚ) :
    (sortEntries entries).filter (fun e => decide (e.2 = v)) =
      entries.filter (fun e => decide (e.2 = v)) := by
  have hsub : (entries.filter (fun e => decide (e.2 = v))).Sublist (sortEntries entries) := by
    refine List.sublist_insertionSort ?_ (List.filter_sublist _)
    rw [List.pairwise_filter]
    refine List.pairwise_of_forall ?_
    intro x y hx hy
    have hx1 : x.2 = v := by simpa using hx
    have hy1 : y.2 = v := by simpa using hy
    simp [compareEntries, hx1, hy1]
  have hsub2 := hsub.filter (fun e => decide (e.2 = v))
  rw [List.filter_filter] at hsub2
  simp only [Bool.and_self] at hsub2
  have hlen : ((sortEntries entries).filter (fun e => decide (e.2 = v))).length =
      (entries.filter (fun e => decide (e.2 = v))).length :=
    ((sortEntries_perm entries).filter _).length_eq
  exact (hsub2.eq_of_length hlen.symm).symm

theorem objectEntries_perm (props : List (String × ℚ)) :
    (objectEntries props).Perm props := by
  unfold objectEntries
  exact ((List.perm_insertionSort _ _).append_right _).trans (List.filter_append_perm _ props)

theorem objectEntries_of_no_index (props : List (String × ℚ))
    (h : ∀ e ∈ props, arrayIndex e.1 = none) : objectEntries props = props := by
  have h1 : props.filter (fun e => (arrayIndex e.1).isSome) = [] := by
    rw [List.filter_eq_nil_iff]
    intro e he
    simp [h e he]
  have h2 : props.filter (fun e => !(arrayIndex e.1).isSome) = props := by
    rw [List.filter_eq_self]
    intro e he
    simp [h e he]
  rw [objectEntries, h1, h2]
  rfl

/-- C7 as stated fails for labels that are array indices: `Object.entries`
lists the label `1` before the label `2` although `2` was inserted first, and
the two entries, of equal probability, are rendered in that order. -/
theorem breakdownRows_numbered_labels :
    breakdownRows numberedProbabilities = [("1", 50), ("2", 50)] ∧
    (sortEntries numberedProbabilities).take 5 = [("2", 50), ("1", 50)] ∧
    breakdownRows numberedProbabilities ≠ (sortEntries numberedProbabilities).take 5 := by
  have h1 : arrayIndex "1" = some 1 := by decide
  have h2 : arrayIndex "2" = some 2 := by decide
  have hrows : breakdownRows numberedProbabilities = [("1", 50), ("2", 50)] := by
    simp [breakdownRows, objectEntries, sortEntries, numberedProbabilities, compareEntries,
      List.insertionSort, List.orderedInsert, h1, h2]
  have hspec : (sortEntries numberedProbabilities).take 5 = [("2", 50), ("1", 50)] := by
    simp [sortEntries, numberedProbabilities, compareEntries, List.insertionSort,
      List.orderedInsert]
  refine ⟨hrows, hspec, ?_⟩
  rw [hrows, hspec]
  decide

theorem objectEntries_other_keys (props : List (String × ℚ)) :
    (objectEntries props).filter (fun e => !(arrayIndex e.1).isSome) =
      props.filter (fun e => !(arrayIndex e.1).isSome) := by
  have h1 : ((props.filter (fun e => (arrayIndex e.1).isSome)).insertionSort
      (fun x y => (arrayIndex x.1).getD 0 ≤ (arrayIndex y.1).getD 0)).filter
        (fun e => !(arrayIndex e.1).isSome) = [] := by
    rw [List.filter_eq_nil_iff]
    intro e he
    have hmem := (List.perm_insertionSort _ _).subset he
    have := (List.mem_filter.mp hmem).2
    simp [this]
  rw [objectEntries, List.filter_append, h1, List.nil_append, List.filter_filter]
  simp

theorem exampleProbabilities_no_index :
    ∀ e ∈ exampleProbabilities, arrayIndex e.1 = none := by
  intro e he
  simp only [exampleProbabilities, List.mem_cons, List.mem_singleton, List.not_mem_nil,
    or_false] at he
  rcases he with h | h | h | h | h | h <;> subst h <;> decide

theorem breakdownRows_example :
    breakdownRows exampleProbabilities =
      [("happy", 92.3), ("sad", 40.1), ("angry", 12.0), ("relaxed", 5.0), ("scared", 2.0)] := by
  rw [breakdownRows, objectEntries_of_no_index _ exampleProbabilities_no_index]
  simp [sortEntries, exampleProbabilities, compareEntries, List.insertionSort,
    List.orderedInsert]
  norm_num

/-- C7, amended: the rendered rows are the first `min 5 n` entries of the
mapping's entries sorted in descending order of probability, and entries of
equal probability keep the order in which `Object.entries` lists them: labels
that are array indices first, in ascending numeric order, then the other labels
in insertion order. When no label is an array index this is insertion order.
For the example mapping the rows are happy, sad, angry, relaxed, scared. -/
theorem breakdownRows_top_five (props : List (String × ℚ)) :
    (breakdownRows props).length = min 5 props.length ∧
    breakdownRows props = (sortEntries (objectEntries props)).take 5 ∧
    (sortEntries (objectEntries props)).Perm props ∧
    (sortEntries (objectEntries props)).Pairwise (fun x y => y.2 ≤ x.2) ∧
    (∀ v : ℚ, (sortEntries (objectEntries props)).filter (fun e => decide (e.2 = v)) =
      (objectEntries props).filter (fun e => decide (e.2 = v))) ∧
    (objectEntries props).filter (fun e => !(arrayIndex e.1).isSome) =
      props.filter (fun e => !(arrayIndex e.1).isSome) ∧
    ((∀ e ∈ props, arrayIndex e.1 = none) →
      ∀ v : ℚ, (sortEntries (objectEntries props)).filter (fun e => decide (e.2 = v)) =
        props.filter (fun e => decide (e.2 = v))) ∧
    breakdownRows exampleProbabilities =
      [("happy", 92.3), ("sad", 40.1), ("angry", 12.0), ("relaxed", 5.0), ("scared", 2.0)] := by
  have hperm : (sortEntries (objectEntries props)).Perm props :=
    (sortEntries_perm _).trans (objectEntries_perm props)
  refine ⟨?_, rfl, hperm, sortEntries_descending _, sortEntries_stable _,
    objectEntries_other_keys props, ?_, breakdownRows_example⟩
  · rw [breakdownRows, List.length_take, hperm.length_eq]
  · intro h v
    rw [sortEntries_stable, objectEntries_of_no_index props h]

/-- C7, amended, at the example mapping, none of whose labels is an array index. -/
theorem breakdownRows_top_five_witness :
    (∀ e ∈ exampleProbabilities, arrayIndex e.1 = none) ∧
    (breakdownRows exampleProbabilities).length = 5 ∧
    (sortEntries (objectEntries exampleProbabilities)).filter (fun e => decide (e.2 = 12.0)) =
      exampleProbabilities.filter (fun e => decide (e.2 = 12.0)) :=
  have h := breakdownRows_top_five exampleProbabilities
  ⟨exampleProbabilities_no_index, by rw [h.1]; rfl,
    h.2.2.2.2.2.2.1 exampleProbabilities_no_index 12.0⟩

theorem tryBlock_third_attempt (fetch : Nat → FetchOutcome) (file : File)
    (r1 r2 r3 : Response) (data : Json)
    (h1 : fetch 0 = FetchOutcome.resolved r1) (hs1 : r1.status = 429)
    (h2 : fetch 1 = FetchOutcome.resolved r2) (hs2 : r2.status = 429)
    (h3 : fetch 2 = FetchOutcome.resolved r3) (hs3 : r3.status = 200)
    (hbody : r3.json = Except.ok data) :
    tryBlock fetch file = (Except.ok data, fullLog file) := by
  have hloop : retryLoop fetch file 0 loopInit =
      { delay := 4000, response := some r3, log := fullLog file } := by
    rw [retryLoop_limited fetch file 0 _ r1 (by decide) h1 hs1,
      retryLoop_limited fetch file 1 _ r2 (by decide) h2 hs2,
      retryLoop_break fetch file 2 _ r3 (by decide) h3 (by omega)]
    simp [backoff, loopInit, fullLog]
  have hok : r3.ok = true := by simp [Response.ok, hs3]
  simp [tryBlock, hloop, hok, hbody]

theorem tryBlock_limitedTwice (file : File) :
    tryBlock limitedTwice file = (Except.ok happyBody, fullLog file) :=
  tryBlock_third_attempt limitedTwice file rateLimited rateLimited okHappy happyBody
    rfl rfl rfl rfl rfl rfl rfl

theorem only_settle_while_pending (s : Session) (file : File)
    (hpend : s.pending = some file) (hload : s.ui.isLoading = true) (e : UiEvent)
    (he : enabledSerial s e = true) : ∃ fetch, e = UiEvent.settled fetch := by
  cases e with
  | fileChosen f rest => simp [enabledSerial, hpend] at he
  | removeClicked => simp [enabledSerial, hpend] at he
  | submitted => simp [enabledSerial, enabled, hload] at he
  | settled fetch => exact ⟨fetch, rfl⟩

/-- C1 as stated fails: the handler is suspended while it waits, and the
controls admit a run in which the image is removed and a file that is not an
image is chosen meanwhile. The submission then meets 429, 429 and 200 with a
parsable body, sends its three requests, and settles with `error` still
holding the validation message, so the final state has a non-null error. -/
theorem overlapLimitedTrace_keeps_error :
    limitedTwice 0 = FetchOutcome.resolved rateLimited ∧
    limitedTwice 1 = FetchOutcome.resolved rateLimited ∧ rateLimited.status = 429 ∧
    limitedTwice 2 = FetchOutcome.resolved okHappy ∧ okHappy.status = 200 ∧
    okHappy.json = Except.ok happyBody ∧
    (tryBlock limitedTwice dogPhoto).2 = fullLog dogPhoto ∧
    (run initialSession overlapLimitedTrace).map
        (fun s => (s.ui.error, s.ui.isLoading, s.ui.prediction.isNonNull,
          errorPanelShown s.ui, resultPanelShown s.ui)) =
      some (some "Please select a valid image file.", false, true, true, true) := by
  have h1 : truthyString (some (createObjectURL "https://pawfeel.example/1")) = true :=
    truthy_createObjectURL _
  have h0 : truthyString none = false := rfl
  have hd : startsWith dogPhoto.type "image/" = true := by decide
  have hn : startsWith notesFile.type "image/" = false := by decide
  have hrun : run initialSession overlapLimitedTrace =
      some { ui := { selectedFile := none, previewUrl := none, prediction := happyBody,
                     isLoading := false, error := some validationMessage },
             pending := none } := by
    simp [overlapLimitedTrace, run, enabled, dispatch, initialSession, initialState,
      handleFileChange, hd, hn, h1, h0, submitStart, resetApp, tryBlock_limitedTwice,
      submitComplete]
  refine ⟨rfl, rfl, rfl, rfl, rfl, rfl, ?_, ?_⟩
  · rw [tryBlock_limitedTwice]
  · rw [hrun]
    rfl

/-- C1, amended: with an image selected and no submission under way, when no
file is chosen and no image removed while the submission is pending (then the
only event admitted before it settles is its settling), a submission whose
first two attempts receive status 429 and whose third receives status 200 with
a parsable body sends exactly 3 requests with exactly two waits, of 1000 ms and
then 2000 ms, and ends with `prediction` equal to the parsed body, `error` null
and `isLoading` false; this is the Succeeded state, alone, whenever the parsed
body is not `null`. -/
theorem runSerial_succeeds_on_third_attempt (fetch : Nat → FetchOutcome) (s : Session)
    (file : File) (r1 r2 r3 : Response) (data : Json)
    (hfile : s.ui.selectedFile = some file) (hload : s.ui.isLoading = false)
    (h1 : fetch 0 = FetchOutcome.resolved r1) (hs1 : r1.status = 429)
    (h2 : fetch 1 = FetchOutcome.resolved r2) (hs2 : r2.status = 429)
    (h3 : fetch 2 = FetchOutcome.resolved r3) (hs3 : r3.status = 200)
    (hbody : r3.json = Except.ok data) :
    (tryBlock fetch file).2 = fullLog file ∧
    requestCount (tryBlock fetch file).2 = 3 ∧
    delays (tryBlock fetch file).2 = [1000, 2000] ∧
    (∀ e, enabledSerial (dispatch s UiEvent.submitted) e = true →
      ∃ other, e = UiEvent.settled other) ∧
    runSerial s [UiEvent.submitted, UiEvent.settled fetch] =
      some { ui := { s.ui with prediction := data, error := none, isLoading := false },
             pending := none } ∧
    (handleSubmit fetch s.ui).1 =
      { s.ui with prediction := data, error := none, isLoading := false } ∧
    (handleSubmit fetch s.ui).2 = fullLog file ∧
    (data.isNonNull = true →
      isSucceeded { s.ui with prediction := data, error := none, isLoading := false } = true ∧
      statesHolding
        { s.ui with prediction := data, error := none, isLoading := false } = 1) := by
  have htry := tryBlock_third_attempt fetch file r1 r2 r3 data h1 hs1 h2 hs2 h3 hs3 hbody
  refine ⟨?_, ?_, ?_, ?_, ?_, ?_, ?_, ?_⟩
  · rw [htry]
  · rw [htry]
    simp [requestCount, fullLog]
  · rw [htry]
    simp [delays, fullLog]
  · intro e he
    refine only_settle_while_pending (dispatch s UiEvent.submitted) file ?_ ?_ e he
    · simp [dispatch, hfile]
    · simp [dispatch, hfile, submitStart]
  · simp [runSerial, enabledSerial, enabled, dispatch, hfile, hload, htry, submitStart,
      submitComplete]
  · rw [handleSubmit_state fetch s.ui file hfile, htry]
    rfl
  · simp only [handleSubmit, hfile]
    rw [htry]
  · intro hdata
    simp [isSucceeded, statesHolding, isIdle, isSubmitting, isFailed, hdata]

/-- C1, amended, at a concrete run: `limitedTwice` met by a submission of `dogPhoto`. -/
theorem runSerial_succeeds_on_third_attempt_witness :
    photoSelected.selectedFile = some dogPhoto ∧ photoSelected.isLoading = false ∧
    limitedTwice 0 = FetchOutcome.resolved rateLimited ∧ rateLimited.status = 429 ∧
    limitedTwice 2 = FetchOutcome.resolved okHappy ∧ okHappy.status = 200 ∧
    (tryBlock limitedTwice dogPhoto).2 = fullLog dogPhoto ∧
    runSerial { ui := photoSelected, pending := none }
        [UiEvent.submitted, UiEvent.settled limitedTwice] =
      some { ui := { photoSelected with prediction := happyBody, error := none,
                                        isLoading := false },
             pending := none } :=
  have h := runSerial_succeeds_on_third_attempt limitedTwice
    { ui := photoSelected, pending := none } dogPhoto rateLimited rateLimited okHappy happyBody
    rfl rfl rfl rfl rfl rfl rfl rfl rfl
  ⟨rfl, rfl, rfl, rfl, rfl, rfl, h.1, h.2.2.2.2.1⟩

theorem handleSubmit_null_body (s : State) (file : File) (hfile : s.selectedFile = some file) :
    (handleSubmit nullBodies s).1.prediction = Json.null ∧
    (handleSubmit nullBodies s).1.error = none ∧
    isSucceeded (handleSubmit nullBodies s).1 = false ∧
    isIdle (handleSubmit nullBodies s).1 = true := by
  have htry : tryBlock nullBodies file = (Except.ok Json.null, [Effect.request API_URL file]) :=
    tryBlock_of_break nullBodies file okNullBody rfl (by decide) (by decide)
  rw [handleSubmit_state nullBodies s file hfile, htry]
  simp [submitComplete, submitStart, isSucceeded, isIdle, Json.isNonNull]

end PawFeel
